import Mathlib

/-!
Verification of the login/session workflow and the stock-list utilities.

The embedding follows the source files:
  * `main.py` — `MainSystem.authenticate`, `MainSystem.discover_accounts`,
    `MainSystem.cleanup` and the `main` entry point.  Collaborator calls
    (credential store, session cache, login manager, account manager) are
    modelled as oracles supplied by an environment record; each call either
    returns a value (`Except.ok`) or raises an exception (`Except.error ()`),
    and every call the workflow performs is recorded in an event trace.
  * `config/stock_lists.py` — the static symbol lists, `validate_symbols`
    and `get_stocks_for_strategy`, translated directly.
-/

namespace MainSystem

/-- Observable calls made by `authenticate` (from `main.py`):
`setDid` is `wb._set_did`, `autoManageSession` is
`session_manager.auto_manage_session`, `checkLoginStatus` is
`login_manager.check_login_status`, `clearSession` is
`session_manager.clear_session`, `loginAttempt n` is the n-th call of
`login_manager.login_automatically`, `sleep30` is `time.sleep(30)`, and
`saveSession` is `session_manager.save_session`. -/
inductive Event where
  | setDid : Event
  | autoManageSession : Event
  | checkLoginStatus : Event
  | clearSession : Event
  | loginAttempt : Nat → Event
  | sleep30 : Event
  | saveSession : Event
  deriving DecidableEq, Repr

/-- Environment of collaborator oracles for one run of `authenticate`.
`Except.error ()` models the call raising an exception.
`loadCredentials` returns the stored DID: `none` models a missing (falsy)
`credentials.get('did')`.  `loginAutomatically` is indexed by the attempt
number (1-based, as in the `for attempt in range(1, max_attempts + 1)`
loop). -/
structure Env where
  credentialsExist : Except Unit Bool
  loadCredentials : Except Unit (Option String)
  setDid : Except Unit Unit
  autoManageSession : Except Unit Bool
  checkLoginStatus : Except Unit Bool
  clearSession : Except Unit Unit
  loginAutomatically : Nat → Except Unit Bool
  saveSession : Except Unit Bool

/-- Outcome of the `try` body of `authenticate`: a normal `return` of a
boolean, or an exception escaping to the outer `except` handler. -/
inductive Outcome where
  | ret : Bool → Outcome
  | exn : Outcome
  deriving DecidableEq, Repr

/-- Result of the fresh-login retry loop (`main.py` lines 178-206). -/
structure LoopRes where
  events : List Event
  out : Outcome
  loggedIn : Bool
  deriving Repr

/-- The fresh-login retry loop of `authenticate`, over the remaining
attempt numbers (`[1, 2, 3]` initially, mirroring
`for attempt in range(1, max_attempts + 1)`).  On a successful login the
code sets `is_logged_in = True`, saves the session (its boolean result is
only logged) and returns `True`; on failure it sleeps 30 seconds when
`attempt < max_attempts`; falling off the loop returns `False`. -/
def loginLoop (env : Env) (loggedIn : Bool) : List Nat → LoopRes
  | [] => ⟨[], Outcome.ret false, loggedIn⟩
  | a :: rest =>
    match env.loginAutomatically a with
    | Except.error _ => ⟨[Event.loginAttempt a], Outcome.exn, loggedIn⟩
    | Except.ok true =>
      match env.saveSession with
      | Except.error _ => ⟨[Event.loginAttempt a, Event.saveSession], Outcome.exn, true⟩
      | Except.ok _ => ⟨[Event.loginAttempt a, Event.saveSession], Outcome.ret true, true⟩
    | Except.ok false =>
      match rest with
      | [] => ⟨[Event.loginAttempt a], Outcome.ret false, loggedIn⟩
      | b :: rest2 =>
        ⟨Event.loginAttempt a :: Event.sleep30 :: (loginLoop env loggedIn (b :: rest2)).events,
         (loginLoop env loggedIn (b :: rest2)).out,
         (loginLoop env loggedIn (b :: rest2)).loggedIn⟩

/-- Result of `authenticate`: the returned boolean, the trace of
collaborator calls, the final `is_logged_in` flag, and whether the outer
`except` handler ran (`caughtExn`). -/
structure AuthResult where
  result : Bool
  events : List Event
  isLoggedIn : Bool
  caughtExn : Bool
  deriving Repr

/-- Convert the `try`-body outcome to the value `authenticate` returns:
the outer `except` handler converts any exception to `False`. -/
def outBool : Outcome → Bool
  | Outcome.ret b => b
  | Outcome.exn => false

/-- Whether the outcome reached the outer `except` handler. -/
def outExn : Outcome → Bool
  | Outcome.ret _ => false
  | Outcome.exn => true

/-- Continuation of `authenticate` after the DID handling (`main.py`
lines 160-206): try to restore a cached session, verify it, clear it on
failed verification, and otherwise run the fresh-login retry loop.
`didEvs` are the events the DID handling already emitted. -/
def afterDid (env : Env) (didEvs : List Event) : AuthResult :=
  match env.autoManageSession with
  | Except.error _ => ⟨false, didEvs ++ [Event.autoManageSession], false, true⟩
  | Except.ok true =>
    match env.checkLoginStatus with
    | Except.error _ =>
      ⟨false, didEvs ++ [Event.autoManageSession, Event.checkLoginStatus], false, true⟩
    | Except.ok true =>
      ⟨true, didEvs ++ [Event.autoManageSession, Event.checkLoginStatus], true, false⟩
    | Except.ok false =>
      match env.clearSession with
      | Except.error _ =>
        ⟨false,
         didEvs ++ [Event.autoManageSession, Event.checkLoginStatus, Event.clearSession],
         false, true⟩
      | Except.ok _ =>
        ⟨outBool (loginLoop env false [1, 2, 3]).out,
         didEvs ++ [Event.autoManageSession, Event.checkLoginStatus, Event.clearSession]
           ++ (loginLoop env false [1, 2, 3]).events,
         (loginLoop env false [1, 2, 3]).loggedIn,
         outExn (loginLoop env false [1, 2, 3]).out⟩
  | Except.ok false =>
    ⟨outBool (loginLoop env false [1, 2, 3]).out,
     didEvs ++ [Event.autoManageSession] ++ (loginLoop env false [1, 2, 3]).events,
     (loginLoop env false [1, 2, 3]).loggedIn,
     outExn (loginLoop env false [1, 2, 3]).out⟩

/-- `MainSystem.authenticate` (`main.py` lines 121-215), with
`is_logged_in` initially `False`.  The inner `did.bin` write has its own
local `try`/`except` and affects nothing observable, so it is omitted.
The final `if not stored_did` branch only logs.  Any exception from a
collaborator propagates to the outer handler, which returns `False`. -/
def authenticate (env : Env) : AuthResult :=
  match env.credentialsExist with
  | Except.error _ => ⟨false, [], false, true⟩
  | Except.ok false => ⟨false, [], false, false⟩
  | Except.ok true =>
    match env.loadCredentials with
    | Except.error _ => ⟨false, [], false, true⟩
    | Except.ok none => afterDid env []
    | Except.ok (some _) =>
      match env.setDid with
      | Except.error _ => ⟨false, [Event.setDid], false, true⟩
      | Except.ok _ => afterDid env [Event.setDid]

/-- Test for a fresh-login event. -/
def isLoginAttempt : Event → Bool
  | Event.loginAttempt _ => true
  | _ => false

/-- Number of fresh-login calls in a trace. -/
def countLA (evs : List Event) : Nat := evs.countP isLoginAttempt

/-- Test for a 30-second delay event. -/
def isSleep : Event → Bool
  | Event.sleep30 => true
  | _ => false

/-- Number of 30-second delays in a trace. -/
def countSleep (evs : List Event) : Nat := evs.countP isSleep

/-- Test for a session-save event. -/
def isSave : Event → Bool
  | Event.saveSession => true
  | _ => false

/-- Number of session-save calls in a trace. -/
def countSave (evs : List Event) : Nat := evs.countP isSave

/-- Observable calls made by `discover_accounts` (`main.py` lines
217-279): `discover` is `account_manager.discover_accounts`,
`getSummary` is `account_manager.get_account_summary`, `getEnabled` is
`account_manager.get_enabled_accounts`. -/
inductive DEvent where
  | discover : DEvent
  | getSummary : DEvent
  | getEnabled : DEvent
  deriving DecidableEq, Repr

/-- Collaborator oracles for one run of `discover_accounts`; the summary
dictionary only feeds logging, so only success or exception matters. -/
structure DiscEnv where
  discoverAccounts : Except Unit Bool
  getAccountSummary : Except Unit Unit
  getEnabledAccounts : Except Unit Unit

/-- `MainSystem.discover_accounts` (`main.py` lines 217-279): returns
`False` immediately when `is_logged_in` is false; otherwise calls the
account manager, logs the summary and the enabled accounts, and returns
the discovery result.  Any exception is caught and converted to `False`. -/
def discover_accounts (isLoggedIn : Bool) (env : DiscEnv) : Bool × List DEvent :=
  if isLoggedIn then
    match env.discoverAccounts with
    | Except.error _ => (false, [DEvent.discover])
    | Except.ok false => (false, [DEvent.discover])
    | Except.ok true =>
      match env.getAccountSummary with
      | Except.error _ => (false, [DEvent.discover, DEvent.getSummary])
      | Except.ok _ =>
        match env.getEnabledAccounts with
        | Except.error _ => (false, [DEvent.discover, DEvent.getSummary, DEvent.getEnabled])
        | Except.ok _ => (true, [DEvent.discover, DEvent.getSummary, DEvent.getEnabled])
  else
    (false, [])

/-- Observable calls made by `cleanup` (`main.py` lines 367-388):
`restore` is `account_manager.restore_original_account`, `logout` is
`login_manager.logout`. -/
inductive CEvent where
  | restore : CEvent
  | logout : CEvent
  deriving DecidableEq, Repr

/-- `MainSystem.cleanup` (`main.py` lines 367-388), returning the calls
it performed.  The body is one `try` block: if `restore_original_account`
raises, the `except` catches it and `logout` is skipped; an exception
from `logout` is likewise caught after the call was made.  After a
successful `_initialize_system`, `account_manager` and `login_manager`
are non-None, which the two `has…` flags model. -/
def cleanup (hasAccountManager : Bool) (hasLoginManager : Bool) (isLoggedIn : Bool)
    (restoreFails : Bool) : List CEvent :=
  if hasAccountManager then
    if restoreFails then [CEvent.restore]
    else if hasLoginManager && isLoggedIn then [CEvent.restore, CEvent.logout]
    else [CEvent.restore]
  else if hasLoginManager && isLoggedIn then [CEvent.logout]
  else []

/-- How the `MainSystem()` construction in `main` ends: normally, with an
exception (e.g. `_initialize_system` re-raises, or `setup_logging` calls
`sys.exit(1)`), or with a `KeyboardInterrupt`. -/
inductive InitOut where
  | ok : InitOut
  | exn : InitOut
  | interrupt : InitOut
  deriving DecidableEq, Repr

/-- How `system.run()` ends as seen from `main`: a returned boolean, a
propagating exception, or a `KeyboardInterrupt` (which `run`'s
`except Exception` does not catch). -/
inductive RunOut where
  | ret : Bool → RunOut
  | exn : RunOut
  | interrupt : RunOut
  deriving DecidableEq, Repr

/-- Environment of one whole process run for `main` (`main.py` lines
391-428): how construction and `run()` end, the `is_logged_in` flag
after `run()`, and whether `restore_original_account` raises during
cleanup. -/
structure MainEnv where
  init : InitOut
  runOut : RunOut
  runLoggedIn : Bool
  restoreFails : Bool

/-- Result of `main`: the process exit code, how many times `cleanup()`
was invoked, and the calls cleanup performed. -/
structure MainRes where
  exitCode : Nat
  cleanupCount : Nat
  cleanupEvents : List CEvent
  deriving Repr

/-- The `main` entry point (`main.py` lines 391-428).  `system` starts as
`None`; if `MainSystem()` raises or is interrupted, the `finally` block
finds `system` still `None` and does not call `cleanup`.  Otherwise
`cleanup` runs exactly once from `finally`, whether `run()` returned
`True` (`sys.exit(0)`), returned `False` (`sys.exit(1)`), raised, or was
interrupted — all leading to exit code 1 except the success path. -/
def mainRun (env : MainEnv) : MainRes :=
  match env.init with
  | InitOut.exn => ⟨1, 0, []⟩
  | InitOut.interrupt => ⟨1, 0, []⟩
  | InitOut.ok =>
    let cev := cleanup true true env.runLoggedIn env.restoreFails
    match env.runOut with
    | RunOut.ret true => ⟨0, 1, cev⟩
    | RunOut.ret false => ⟨1, 1, cev⟩
    | RunOut.exn => ⟨1, 1, cev⟩
    | RunOut.interrupt => ⟨1, 1, cev⟩

end MainSystem

namespace StockLists

/-- `CORE_ETFS` from `config/stock_lists.py`. -/
def CORE_ETFS : List String :=
  ["SPY", "QQQ", "IWM",
   "VTV", "VUG", "IWD", "IWF",
   "XLF", "XLE", "XLV", "XLI", "XLU", "XLP", "XLRE",
   "VEA", "VWO"]

/-- `MEAN_REVERSION` from `config/stock_lists.py` (starts with the
`*CORE_ETFS` splice). -/
def MEAN_REVERSION : List String :=
  CORE_ETFS ++
  ["AAPL", "MSFT", "GOOGL", "AMZN", "TSLA", "NVDA", "META",
   "JPM", "BAC", "USB", "TFC", "PNC", "WFC", "GS", "MS",
   "XOM", "CVX", "EOG", "COP",
   "JNJ", "PG", "KO", "UNH", "HD", "MCD",
   "O", "PLD", "CCI", "AMT",
   "DUK", "SO", "NEE"]

/-- `SECTOR_ROTATION` from `config/stock_lists.py`. -/
def SECTOR_ROTATION : List String :=
  ["XLK", "XLF", "XLE", "XLV", "XLI", "XLP", "XLU", "XLY", "XLB", "XLRE", "XLC"]

/-- `INTERNATIONAL_OUTPERFORMANCE` from `config/stock_lists.py`. -/
def INTERNATIONAL_OUTPERFORMANCE : List String :=
  ["VEA", "EFA", "VXUS", "IEFA",
   "HEFA", "HEDJ",
   "VGK", "EWJ", "VWO", "EEMA",
   "EWG", "EWU", "EWY", "INDA", "FXI",
   "ASML", "NVO", "TSM", "UL"]

/-- `VALUE_RATE_UNIVERSE` from `config/stock_lists.py`. -/
def VALUE_RATE_UNIVERSE : List String :=
  ["PLD", "EXR",
   "WELL", "VTR",
   "SPG", "REG",
   "CCI", "AMT",
   "EQR", "AVB",
   "XLRE", "IYR",
   "JPM", "BAC", "WFC", "C",
   "USB", "TFC", "PNC",
   "GS", "MS",
   "XLF", "KBE"]

/-- `MICROSTRUCTURE_BREAKOUT` from `config/stock_lists.py` (starts with
the `*SECTOR_ROTATION` splice). -/
def MICROSTRUCTURE_BREAKOUT : List String :=
  SECTOR_ROTATION ++
  ["SPY", "QQQ", "IWM", "VTI", "VTV", "VUG",
   "AAPL", "MSFT", "GOOGL", "AMZN", "TSLA", "NVDA", "META",
   "BRK.B", "JNJ", "JPM", "V", "MA", "UNH",
   "AMD", "NFLX", "CRM", "ADBE"]

/-- `POLICY_MOMENTUM` from `config/stock_lists.py`. -/
def POLICY_MOMENTUM : List String :=
  ["XLF", "XLRE", "XLU",
   "JPM", "BAC", "WFC", "USB", "TFC",
   "TSLA", "NVDA", "AMD", "CRM", "NFLX",
   "TLT", "IEF", "SHY", "VXX",
   "GLD", "SLV", "UUP"]

/-- `GAP_TRADING` from `config/stock_lists.py` (starts with the
`*CORE_ETFS` splice). -/
def GAP_TRADING : List String :=
  CORE_ETFS ++
  ["ARKK", "GLD", "TLT", "HYG",
   "AAPL", "MSFT", "GOOGL", "AMZN", "TSLA", "NVDA", "META",
   "AMD", "SNOW", "PLTR", "ROKU", "ZM",
   "CVS", "BA", "X", "FCX"]

/-- `BULLISH_MOMENTUM` from `config/stock_lists.py`. -/
def BULLISH_MOMENTUM : List String :=
  ["AAPL", "MSFT", "GOOGL", "AMZN", "NVDA", "META", "TSLA",
   "CRM", "ADBE", "NFLX", "AMD", "SNOW", "PLTR",
   "QQQ", "ARKK", "VGT", "XLK", "MTUM",
   "XLF", "XLE", "XLV"]

/-- `CONSERVATIVE_STRATEGY` from `config/stock_lists.py`. -/
def CONSERVATIVE_STRATEGY : List String :=
  ["SPY", "VTV", "VEA",
   "O", "USB", "DUK",
   "VGK", "EWJ"]

/-- `AGGRESSIVE_STRATEGY` from `config/stock_lists.py` (contains the
`*SECTOR_ROTATION[:5]` splice). -/
def AGGRESSIVE_STRATEGY : List String :=
  ["QQQ", "NVDA", "TSLA", "AMD"] ++
  SECTOR_ROTATION.take 5 ++
  ["VWO", "EWY", "INDA",
   "SPY", "IWM"]

/-- `BALANCED_STRATEGY` from `config/stock_lists.py`. -/
def BALANCED_STRATEGY : List String :=
  ["SPY", "QQQ", "VTV", "VEA",
   "USB", "O", "XLF",
   "NVDA", "CRM", "XLK",
   "VGK", "VWO"]

/-- Python's `str.strip()`: remove leading and trailing whitespace. -/
def pyStrip (s : String) : String :=
  ⟨((s.data.dropWhile Char.isWhitespace).reverse.dropWhile Char.isWhitespace).reverse⟩

/-- Python's `str.upper()` (the stock symbols are ASCII). -/
def pyUpper (s : String) : String := ⟨s.data.map Char.toUpper⟩

/-- The cleaning step `symbol.strip().upper()` of `validate_symbols`. -/
def pyClean (s : String) : String := pyUpper (pyStrip s)

/-- Loop body of `StockLists.validate_symbols`: `seen` is the set of
already-recorded symbols.  As in the source, the membership test
`if symbol not in seen` is on the RAW symbol, an empty symbol is skipped
(the `isinstance` test is vacuous for strings), and the CLEANED symbol
(`symbol.strip().upper()`) is what gets appended and added to `seen`. -/
def validateGo (seen : List String) : List String → List String
  | [] => []
  | s :: rest =>
    if s ∈ seen then validateGo seen rest
    else if s = "" then validateGo seen rest
    else pyClean s :: validateGo (pyClean s :: seen) rest

/-- `StockLists.validate_symbols` (`config/stock_lists.py` lines
189-220). -/
def validate_symbols (symbolList : List String) : List String :=
  validateGo [] symbolList

/-- The `strategy_mapping` dictionary of
`StockLists.get_stocks_for_strategy`. -/
def strategy_mapping : List (String × List String) :=
  [("MeanReversion", MEAN_REVERSION),
   ("SectorRotation", SECTOR_ROTATION),
   ("International", INTERNATIONAL_OUTPERFORMANCE),
   ("ValueRate", VALUE_RATE_UNIVERSE),
   ("MicrostructureBreakout", MICROSTRUCTURE_BREAKOUT),
   ("PolicyMomentum", POLICY_MOMENTUM),
   ("GapTrading", GAP_TRADING),
   ("BullishMomentumDip", BULLISH_MOMENTUM),
   ("Conservative", CONSERVATIVE_STRATEGY),
   ("Aggressive", AGGRESSIVE_STRATEGY),
   ("Balanced", BALANCED_STRATEGY)]

/-- `StockLists.get_stocks_for_strategy` (`config/stock_lists.py` lines
222-241): `strategy_mapping.get(strategy_name, cls.MEAN_REVERSION)`
followed by `validate_symbols`. -/
def get_stocks_for_strategy (strategyName : String) : List String :=
  validate_symbols ((strategy_mapping.lookup strategyName).getD MEAN_REVERSION)

end StockLists

namespace MainSystem

/-- Concrete run: no stored credential record. -/
def envNoCreds : Env :=
  ⟨Except.ok false, Except.ok none, Except.ok (), Except.ok false, Except.ok false,
   Except.ok (), fun _ => Except.ok false, Except.ok true⟩

/-- Concrete run: credentials present, no cached session, every fresh
login attempt fails. -/
def envAllFail : Env :=
  ⟨Except.ok true, Except.ok none, Except.ok (), Except.ok false, Except.ok false,
   Except.ok (), fun _ => Except.ok false, Except.ok true⟩

/-- Concrete run: cached session restores and verifies. -/
def envCached : Env :=
  ⟨Except.ok true, Except.ok (some "abc"), Except.ok (), Except.ok true, Except.ok true,
   Except.ok (), fun _ => Except.ok false, Except.ok true⟩

/-- Concrete run: cached session restores but fails verification; the
first fresh login then succeeds. -/
def envStale : Env :=
  ⟨Except.ok true, Except.ok (some "abc"), Except.ok (), Except.ok true, Except.ok false,
   Except.ok (), fun _ => Except.ok true, Except.ok true⟩

/-- Concrete run: loading the credentials raises an exception. -/
def envLoadRaises : Env :=
  ⟨Except.ok true, Except.error (), Except.ok (), Except.ok false, Except.ok false,
   Except.ok (), fun _ => Except.ok false, Except.ok true⟩

/-- Concrete run: no cached session, first login succeeds, but saving the
new session reports failure (returns `False`). -/
def envSaveFail : Env :=
  ⟨Except.ok true, Except.ok none, Except.ok (), Except.ok false, Except.ok false,
   Except.ok (), fun _ => Except.ok true, Except.ok false⟩

/-- Concrete whole-process run: construction succeeds, the workflow
succeeds with a live session, cleanup's restore does not raise. -/
def menvSuccess : MainEnv := ⟨InitOut.ok, RunOut.ret true, true, false⟩

/-- Concrete whole-process run: `MainSystem()` construction raises. -/
def menvInitFails : MainEnv := ⟨InitOut.exn, RunOut.ret false, false, false⟩

end MainSystem

namespace MainSystem

/-- An outcome that reached the outer handler yields `False`. -/
theorem outBool_of_outExn (o : Outcome) (h : outExn o = true) : outBool o = false := by
  cases o <;> simp_all [outBool, outExn]

/-- C2: when the credential store reports that no credential record
exists, `authenticate` returns `False` with an empty call trace — no
device-id set, no session restore, no login attempt — and without
reaching the exception handler. -/
theorem authenticate_no_credentials (env : Env)
    (h : env.credentialsExist = Except.ok false) :
    authenticate env = ⟨false, [], false, false⟩ := by
  simp [authenticate, h]

/-- Witness for C2 at the concrete environment `envNoCreds`. -/
theorem authenticate_no_credentials_witness :
    authenticate envNoCreds = ⟨false, [], false, false⟩ :=
  authenticate_no_credentials envNoCreds rfl

/-- C5: `discover_accounts` called while `is_logged_in` is false returns
`False` and performs no remote calls, whatever the account manager would
have answered. -/
theorem discover_accounts_not_authenticated (env : DiscEnv) :
    discover_accounts false env = (false, []) := rfl

/-- C7: whenever the outer exception handler of `authenticate` ran —
i.e. an unexpected error was raised internally — the returned value is
`False`; the embedding is a total function, so a boolean is always
returned. -/
theorem authenticate_exception_returns_false (env : Env)
    (h : (authenticate env).caughtExn = true) :
    (authenticate env).result = false := by
  revert h
  unfold authenticate afterDid
  repeat' split
  all_goals intro h
  all_goals first
    | rfl
    | exact outBool_of_outExn _ h
    | simp_all

/-- Witness for C7 at the concrete environment `envLoadRaises`, whose
credential load raises. -/
theorem authenticate_exception_returns_false_witness :
    (authenticate envLoadRaises).result = false :=
  authenticate_exception_returns_false envLoadRaises rfl

/-- The retry loop performs at most one login call per remaining attempt
number. -/
theorem loginLoop_countLA_le (env : Env) (li : Bool) :
    ∀ l : List Nat, countLA (loginLoop env li l).events ≤ l.length := by
  intro l
  induction l with
  | nil => simp [loginLoop, countLA]
  | cons a rest ih =>
    cases rest with
    | nil =>
      cases hla : env.loginAutomatically a with
      | error e => simp [loginLoop, hla, countLA, List.countP_cons, isLoginAttempt]
      | ok b =>
        cases b with
        | false => simp [loginLoop, hla, countLA, List.countP_cons, isLoginAttempt]
        | true =>
          cases hss : env.saveSession <;>
            simp [loginLoop, hla, hss, countLA, List.countP_cons, isLoginAttempt]
    | cons b2 rest2 =>
      cases hla : env.loginAutomatically a with
      | error e => simp [loginLoop, hla, countLA, List.countP_cons, isLoginAttempt]
      | ok b =>
        cases b with
        | false =>
          simp only [countLA, List.length_cons] at ih
          simp [loginLoop, hla, countLA, List.countP_cons, isLoginAttempt,
            List.length_cons]
          omega
        | true =>
          cases hss : env.saveSession <;>
            simp [loginLoop, hla, hss, countLA, List.countP_cons, isLoginAttempt]

/-- Every event the retry loop emits is a login attempt, a 30-second
delay, or a session save. -/
theorem loginLoop_events_shape (env : Env) (li : Bool) :
    ∀ l : List Nat, ∀ e ∈ (loginLoop env li l).events,
      (∃ n, e = Event.loginAttempt n) ∨ e = Event.sleep30 ∨ e = Event.saveSession := by
  intro l
  induction l with
  | nil => simp [loginLoop]
  | cons a rest ih =>
    intro e he
    cases rest with
    | nil =>
      rcases hla : env.loginAutomatically a with err | b
      · have hq : loginLoop env li [a] = ⟨[Event.loginAttempt a], Outcome.exn, li⟩ := by
          simp [loginLoop, hla]
        rw [hq] at he
        simp at he
        subst he
        exact Or.inl ⟨a, rfl⟩
      · cases b with
        | false =>
          have hq : loginLoop env li [a] = ⟨[Event.loginAttempt a], Outcome.ret false, li⟩ := by
            simp [loginLoop, hla]
          rw [hq] at he
          simp at he
          subst he
          exact Or.inl ⟨a, rfl⟩
        | true =>
          rcases hss : env.saveSession with e2 | s
          · have hq : loginLoop env li [a] =
                ⟨[Event.loginAttempt a, Event.saveSession], Outcome.exn, true⟩ := by
              simp [loginLoop, hla, hss]
            rw [hq] at he
            simp at he
            rcases he with he | he
            · subst he; exact Or.inl ⟨a, rfl⟩
            · subst he; simp
          · have hq : loginLoop env li [a] =
                ⟨[Event.loginAttempt a, Event.saveSession], Outcome.ret true, true⟩ := by
              simp [loginLoop, hla, hss]
            rw [hq] at he
            simp at he
            rcases he with he | he
            · subst he; exact Or.inl ⟨a, rfl⟩
            · subst he; simp
    | cons b2 rest2 =>
      rcases hla : env.loginAutomatically a with err | b
      · have hq : loginLoop env li (a :: b2 :: rest2) =
            ⟨[Event.loginAttempt a], Outcome.exn, li⟩ := by
          simp [loginLoop, hla]
        rw [hq] at he
        simp at he
        subst he
        exact Or.inl ⟨a, rfl⟩
      · cases b with
        | false =>
          have hq : (loginLoop env li (a :: b2 :: rest2)).events =
              Event.loginAttempt a :: Event.sleep30 ::
                (loginLoop env li (b2 :: rest2)).events := by
            simp [loginLoop, hla]
          rw [hq] at he
          simp only [List.mem_cons] at he
          rcases he with he | he | he
          · subst he; exact Or.inl ⟨a, rfl⟩
          · subst he; simp
          · exact ih e he
        | true =>
          rcases hss : env.saveSession with e2 | s
          · have hq : loginLoop env li (a :: b2 :: rest2) =
                ⟨[Event.loginAttempt a, Event.saveSession], Outcome.exn, true⟩ := by
              simp [loginLoop, hla, hss]
            rw [hq] at he
            simp at he
            rcases he with he | he
            · subst he; exact Or.inl ⟨a, rfl⟩
            · subst he; simp
          · have hq : loginLoop env li (a :: b2 :: rest2) =
                ⟨[Event.loginAttempt a, Event.saveSession], Outcome.ret true, true⟩ := by
              simp [loginLoop, hla, hss]
            rw [hq] at he
            simp at he
            rcases he with he | he
            · subst he; exact Or.inl ⟨a, rfl⟩
            · subst he; simp

/-- When all three login attempts fail, the loop trace is exactly
attempt 1, delay, attempt 2, delay, attempt 3, and the loop returns
`False`. -/
theorem loginLoop_allFail (env : Env) (li : Bool)
    (h1 : env.loginAutomatically 1 = Except.ok false)
    (h2 : env.loginAutomatically 2 = Except.ok false)
    (h3 : env.loginAutomatically 3 = Except.ok false) :
    loginLoop env li [1, 2, 3] =
      ⟨[Event.loginAttempt 1, Event.sleep30, Event.loginAttempt 2, Event.sleep30,
        Event.loginAttempt 3], Outcome.ret false, li⟩ := by
  simp [loginLoop, h1, h2, h3]

/-- Success on attempt 1 (with the save call returning a boolean). -/
theorem loginLoop_succAt1 (env : Env) (li : Bool) (s : Bool)
    (h1 : env.loginAutomatically 1 = Except.ok true)
    (hs : env.saveSession = Except.ok s) :
    loginLoop env li [1, 2, 3] =
      ⟨[Event.loginAttempt 1, Event.saveSession], Outcome.ret true, true⟩ := by
  simp [loginLoop, h1, hs]

/-- Success on attempt 2 (with the save call returning a boolean). -/
theorem loginLoop_succAt2 (env : Env) (li : Bool) (s : Bool)
    (h1 : env.loginAutomatically 1 = Except.ok false)
    (h2 : env.loginAutomatically 2 = Except.ok true)
    (hs : env.saveSession = Except.ok s) :
    loginLoop env li [1, 2, 3] =
      ⟨[Event.loginAttempt 1, Event.sleep30, Event.loginAttempt 2, Event.saveSession],
        Outcome.ret true, true⟩ := by
  simp [loginLoop, h1, h2, hs]

/-- Success on attempt 3 (with the save call returning a boolean). -/
theorem loginLoop_succAt3 (env : Env) (li : Bool) (s : Bool)
    (h1 : env.loginAutomatically 1 = Except.ok false)
    (h2 : env.loginAutomatically 2 = Except.ok false)
    (h3 : env.loginAutomatically 3 = Except.ok true)
    (hs : env.saveSession = Except.ok s) :
    loginLoop env li [1, 2, 3] =
      ⟨[Event.loginAttempt 1, Event.sleep30, Event.loginAttempt 2, Event.sleep30,
        Event.loginAttempt 3, Event.saveSession], Outcome.ret true, true⟩ := by
  simp [loginLoop, h1, h2, h3, hs]

/-- When credentials exist and no cached session is usable (either none
restores, or one restores, fails verification and is cleared), the run
of `authenticate` is a prefix of bookkeeping calls followed by the fresh
login loop, whose outcome decides the returned value. -/
theorem authenticate_decomp (env : Env) (d : Option String)
    (hc : env.credentialsExist = Except.ok true)
    (hl : env.loadCredentials = Except.ok d)
    (hsd : env.setDid = Except.ok ())
    (hsess : env.autoManageSession = Except.ok false ∨
      (env.autoManageSession = Except.ok true ∧ env.checkLoginStatus = Except.ok false ∧
        env.clearSession = Except.ok ())) :
    ∃ pre, (authenticate env).events = pre ++ (loginLoop env false [1, 2, 3]).events ∧
      (∀ e ∈ pre, e = Event.setDid ∨ e = Event.autoManageSession ∨
        e = Event.checkLoginStatus ∨ e = Event.clearSession) ∧
      (authenticate env).result = outBool (loginLoop env false [1, 2, 3]).out ∧
      (authenticate env).isLoggedIn = (loginLoop env false [1, 2, 3]).loggedIn := by
  rcases hsess with ham | ⟨ham, hch, hcl⟩
  · cases d with
    | none =>
      refine ⟨[Event.autoManageSession], ?_, ?_, ?_, ?_⟩ <;>
        simp [authenticate, afterDid, hc, hl, hsd, ham]
    | some s =>
      refine ⟨[Event.setDid, Event.autoManageSession], ?_, ?_, ?_, ?_⟩ <;>
        simp [authenticate, afterDid, hc, hl, hsd, ham]
  · cases d with
    | none =>
      refine ⟨[Event.autoManageSession, Event.checkLoginStatus, Event.clearSession],
        ?_, ?_, ?_, ?_⟩ <;> simp [authenticate, afterDid, hc, hl, hsd, ham, hch, hcl]
    | some s =>
      refine ⟨[Event.setDid, Event.autoManageSession, Event.checkLoginStatus,
        Event.clearSession], ?_, ?_, ?_, ?_⟩ <;>
        simp [authenticate, afterDid, hc, hl, hsd, ham, hch, hcl]

/-- The bookkeeping prefix contains no login attempt, no delay and no
save call. -/
theorem pre_events_counts (pre : List Event)
    (hpre : ∀ e ∈ pre, e = Event.setDid ∨ e = Event.autoManageSession ∨
      e = Event.checkLoginStatus ∨ e = Event.clearSession) :
    countLA pre = 0 ∧ countSleep pre = 0 ∧ countSave pre = 0 := by
  refine ⟨List.countP_eq_zero.mpr ?_, List.countP_eq_zero.mpr ?_,
    List.countP_eq_zero.mpr ?_⟩ <;>
    intro e he <;> rcases hpre e he with h | h | h | h <;> subst h <;> decide

/-- C1: with credentials present and no usable cached session, the
fresh-login loop of `authenticate` calls the remote login at most 3
times; when all attempts fail the trace ends with exactly attempt 1,
a 30-second delay, attempt 2, a delay, attempt 3 — two delays, none
after the final attempt — and the call returns `False`; when attempt k
(k = 1, 2 or 3) succeeds there are exactly k attempts and k - 1 delays
and the call returns `True`. -/
theorem authenticate_retry_policy (env : Env) (d : Option String)
    (hc : env.credentialsExist = Except.ok true)
    (hl : env.loadCredentials = Except.ok d)
    (hsd : env.setDid = Except.ok ())
    (hsess : env.autoManageSession = Except.ok false ∨
      (env.autoManageSession = Except.ok true ∧ env.checkLoginStatus = Except.ok false ∧
        env.clearSession = Except.ok ())) :
    countLA (authenticate env).events ≤ 3 ∧
    ((env.loginAutomatically 1 = Except.ok false ∧ env.loginAutomatically 2 = Except.ok false ∧
        env.loginAutomatically 3 = Except.ok false) →
      (authenticate env).result = false ∧
      ∃ pre, (authenticate env).events =
          pre ++ [Event.loginAttempt 1, Event.sleep30, Event.loginAttempt 2, Event.sleep30,
            Event.loginAttempt 3] ∧
        countLA pre = 0 ∧ countSleep pre = 0) ∧
    (∀ k s, (k = 1 ∨ k = 2 ∨ k = 3) → env.loginAutomatically k = Except.ok true →
      (∀ i, 1 ≤ i → i < k → env.loginAutomatically i = Except.ok false) →
      env.saveSession = Except.ok s →
      (authenticate env).result = true ∧ countLA (authenticate env).events = k ∧
        countSleep (authenticate env).events = k - 1) := by
  obtain ⟨pre, hev, hpre, hres, hli⟩ := authenticate_decomp env d hc hl hsd hsess
  obtain ⟨hpLA, hpSl, hpSv⟩ := pre_events_counts pre hpre
  simp only [countLA] at hpLA
  simp only [countSleep] at hpSl
  refine ⟨?_, ?_, ?_⟩
  · rw [hev]
    have h3 := loginLoop_countLA_le env false [1, 2, 3]
    simp only [countLA, List.length_cons, List.length_nil] at h3
    simp only [countLA, List.countP_append]
    omega
  · rintro ⟨f1, f2, f3⟩
    have hL := loginLoop_allFail env false f1 f2 f3
    constructor
    · rw [hres, hL]
      rfl
    · refine ⟨pre, ?_, hpLA, hpSl⟩
      rw [hev, hL]
  · rintro k s hk hsucc hprev hsave
    rcases hk with rfl | rfl | rfl
    · have hL := loginLoop_succAt1 env false s hsucc hsave
      refine ⟨by rw [hres, hL]; rfl, ?_, ?_⟩ <;>
        · rw [hev, hL]
          simp [countLA, countSleep, List.countP_append, List.countP_cons,
            isLoginAttempt, isSleep, hpLA, hpSl]
    · have f1 : env.loginAutomatically 1 = Except.ok false := hprev 1 (by omega) (by omega)
      have hL := loginLoop_succAt2 env false s f1 hsucc hsave
      refine ⟨by rw [hres, hL]; rfl, ?_, ?_⟩ <;>
        · rw [hev, hL]
          simp [countLA, countSleep, List.countP_append, List.countP_cons,
            isLoginAttempt, isSleep, hpLA, hpSl]
    · have f1 : env.loginAutomatically 1 = Except.ok false := hprev 1 (by omega) (by omega)
      have f2 : env.loginAutomatically 2 = Except.ok false := hprev 2 (by omega) (by omega)
      have hL := loginLoop_succAt3 env false s f1 f2 hsucc hsave
      refine ⟨by rw [hres, hL]; rfl, ?_, ?_⟩ <;>
        · rw [hev, hL]
          simp [countLA, countSleep, List.countP_append, List.countP_cons,
            isLoginAttempt, isSleep, hpLA, hpSl]

/-- Witness for C1 at the concrete environment `envAllFail`, where every
login attempt fails. -/
theorem authenticate_retry_policy_witness :
    (authenticate envAllFail).result = false := by
  have h := authenticate_retry_policy envAllFail none rfl rfl rfl (Or.inl rfl)
  exact (h.2.1 ⟨rfl, rfl, rfl⟩).1

/-- C3: when a cached session restores and the remote verification
succeeds, `authenticate` returns `True`, sets the logged-in flag, and
performs zero fresh-login calls. -/
theorem authenticate_cached_session (env : Env) (d : Option String)
    (hc : env.credentialsExist = Except.ok true)
    (hl : env.loadCredentials = Except.ok d)
    (hsd : env.setDid = Except.ok ())
    (ham : env.autoManageSession = Except.ok true)
    (hch : env.checkLoginStatus = Except.ok true) :
    (authenticate env).result = true ∧ (authenticate env).isLoggedIn = true ∧
      countLA (authenticate env).events = 0 := by
  cases d with
  | none =>
    refine ⟨?_, ?_, ?_⟩ <;>
      simp [authenticate, afterDid, hc, hl, hsd, ham, hch, countLA,
        List.countP_cons, isLoginAttempt]
  | some s =>
    refine ⟨?_, ?_, ?_⟩ <;>
      simp [authenticate, afterDid, hc, hl, hsd, ham, hch, countLA,
        List.countP_cons, isLoginAttempt]

/-- Witness for C3 at the concrete environment `envCached`. -/
theorem authenticate_cached_session_witness :
    (authenticate envCached).result = true ∧ (authenticate envCached).isLoggedIn = true ∧
      countLA (authenticate envCached).events = 0 :=
  authenticate_cached_session envCached (some "abc") rfl rfl rfl rfl rfl

/-- C4: when a cached session restores but verification fails, the trace
of `authenticate` splits at the `clearSession` call: every earlier event
is not a login attempt (the cache is cleared before any fresh login),
and no later event touches the session cache restore or the verification
call again (the discarded session is never reused in that run). -/
theorem authenticate_clears_stale_session (env : Env) (d : Option String)
    (hc : env.credentialsExist = Except.ok true)
    (hl : env.loadCredentials = Except.ok d)
    (hsd : env.setDid = Except.ok ())
    (ham : env.autoManageSession = Except.ok true)
    (hch : env.checkLoginStatus = Except.ok false)
    (hcl : env.clearSession = Except.ok ()) :
    ∃ pre post, (authenticate env).events = pre ++ Event.clearSession :: post ∧
      (∀ e ∈ pre, isLoginAttempt e = false) ∧
      (∀ e ∈ post, e ≠ Event.autoManageSession ∧ e ≠ Event.checkLoginStatus) := by
  have hshape := loginLoop_events_shape env false [1, 2, 3]
  cases d with
  | none =>
    refine ⟨[Event.autoManageSession, Event.checkLoginStatus],
      (loginLoop env false [1, 2, 3]).events, ?_, ?_, ?_⟩
    · simp [authenticate, afterDid, hc, hl, hsd, ham, hch, hcl]
    · intro e he
      simp at he
      rcases he with rfl | rfl <;> decide
    · intro e he
      rcases hshape e he with ⟨n, rfl⟩ | rfl | rfl <;> exact ⟨by simp, by simp⟩
  | some s =>
    refine ⟨[Event.setDid, Event.autoManageSession, Event.checkLoginStatus],
      (loginLoop env false [1, 2, 3]).events, ?_, ?_, ?_⟩
    · simp [authenticate, afterDid, hc, hl, hsd, ham, hch, hcl]
    · intro e he
      simp at he
      rcases he with rfl | rfl | rfl <;> decide
    · intro e he
      rcases hshape e he with ⟨n, rfl⟩ | rfl | rfl <;> exact ⟨by simp, by simp⟩

/-- Witness for C4 at the concrete environment `envStale`. -/
theorem authenticate_clears_stale_session_witness :
    ∃ pre post, (authenticate envStale).events = pre ++ Event.clearSession :: post ∧
      (∀ e ∈ pre, isLoginAttempt e = false) ∧
      (∀ e ∈ post, e ≠ Event.autoManageSession ∧ e ≠ Event.checkLoginStatus) :=
  authenticate_clears_stale_session envStale (some "abc") rfl rfl rfl rfl rfl rfl

/-- C8: when a fresh login succeeds on attempt k but saving the new
session reports failure (returns `False` rather than raising),
`authenticate` still returns `True` and the save is performed exactly
once — not retried. -/
theorem authenticate_save_failure_nonfatal (env : Env) (d : Option String) (k : Nat)
    (hc : env.credentialsExist = Except.ok true)
    (hl : env.loadCredentials = Except.ok d)
    (hsd : env.setDid = Except.ok ())
    (hsess : env.autoManageSession = Except.ok false ∨
      (env.autoManageSession = Except.ok true ∧ env.checkLoginStatus = Except.ok false ∧
        env.clearSession = Except.ok ()))
    (hk : k = 1 ∨ k = 2 ∨ k = 3)
    (hsucc : env.loginAutomatically k = Except.ok true)
    (hprev : ∀ i, 1 ≤ i → i < k → env.loginAutomatically i = Except.ok false)
    (hsave : env.saveSession = Except.ok false) :
    (authenticate env).result = true ∧ countSave (authenticate env).events = 1 := by
  obtain ⟨pre, hev, hpre, hres, hli⟩ := authenticate_decomp env d hc hl hsd hsess
  obtain ⟨-, -, hpSv⟩ := pre_events_counts pre hpre
  simp only [countSave] at hpSv
  rcases hk with rfl | rfl | rfl
  · have hL := loginLoop_succAt1 env false false hsucc hsave
    refine ⟨by rw [hres, hL]; rfl, ?_⟩
    rw [hev, hL]
    simp [countSave, List.countP_append, List.countP_cons, isSave, hpSv]
  · have f1 : env.loginAutomatically 1 = Except.ok false := hprev 1 (by omega) (by omega)
    have hL := loginLoop_succAt2 env false false f1 hsucc hsave
    refine ⟨by rw [hres, hL]; rfl, ?_⟩
    rw [hev, hL]
    simp [countSave, List.countP_append, List.countP_cons, isSave, hpSv]
  · have f1 : env.loginAutomatically 1 = Except.ok false := hprev 1 (by omega) (by omega)
    have f2 : env.loginAutomatically 2 = Except.ok false := hprev 2 (by omega) (by omega)
    have hL := loginLoop_succAt3 env false false f1 f2 hsucc hsave
    refine ⟨by rw [hres, hL]; rfl, ?_⟩
    rw [hev, hL]
    simp [countSave, List.countP_append, List.countP_cons, isSave, hpSv]

/-- Witness for C8 at the concrete environment `envSaveFail`, where the
first login succeeds and the session save reports failure. -/
theorem authenticate_save_failure_nonfatal_witness :
    (authenticate envSaveFail).result = true ∧
      countSave (authenticate envSaveFail).events = 1 :=
  authenticate_save_failure_nonfatal envSaveFail none 1 rfl rfl rfl (Or.inl rfl)
    (Or.inl rfl) rfl (fun _ hi hlt => absurd hlt (Nat.not_lt.mpr hi)) rfl

/-- C9, counterexample: it is not true that every run of the program
invokes `cleanup` exactly once — when `MainSystem()` construction raises,
`system` is still `None` in the `finally` block and `cleanup` runs zero
times. -/
theorem main_cleanup_not_always_once :
    ¬ ∀ env : MainEnv, (mainRun env).cleanupCount = 1 := by
  intro h
  exact absurd (h menvInitFails) (by decide)

/-- C9, amended: in every run in which `MainSystem()` construction
completes, `cleanup` is invoked exactly once — whether `run()` returned
`True` or `False`, raised, or was interrupted — it calls the
account-context restore, and, provided the restore does not raise, it
logs out whenever a session was established. -/
theorem main_cleanup_once_after_init (env : MainEnv) (h : env.init = InitOut.ok) :
    (mainRun env).cleanupCount = 1 ∧
    CEvent.restore ∈ (mainRun env).cleanupEvents ∧
    (env.restoreFails = false → env.runLoggedIn = true →
      CEvent.logout ∈ (mainRun env).cleanupEvents) := by
  rcases hro : env.runOut with b | _ | _
  · cases b <;> cases hrl : env.runLoggedIn <;> cases hrf : env.restoreFails <;>
      simp [mainRun, cleanup, h, hro, hrl, hrf]
  · cases hrl : env.runLoggedIn <;> cases hrf : env.restoreFails <;>
      simp [mainRun, cleanup, h, hro, hrl, hrf]
  · cases hrl : env.runLoggedIn <;> cases hrf : env.restoreFails <;>
      simp [mainRun, cleanup, h, hro, hrl, hrf]

/-- Witness for the amended C9 at the concrete run `menvSuccess`. -/
theorem main_cleanup_once_after_init_witness :
    (mainRun menvSuccess).cleanupCount = 1 ∧
    CEvent.restore ∈ (mainRun menvSuccess).cleanupEvents ∧
    (menvSuccess.restoreFails = false → menvSuccess.runLoggedIn = true →
      CEvent.logout ∈ (mainRun menvSuccess).cleanupEvents) :=
  main_cleanup_once_after_init menvSuccess rfl

end MainSystem

namespace StockLists

/-- C6 (code evaluation at the failing input): `validate_symbols`, whose
documentation promises duplicate removal, maps `["spy", "spy"]` to
`["SPY", "SPY"]` — the raw second symbol is not in the `seen` set, which
holds only the cleaned `"SPY"` — so the output is not duplicate-free. -/
theorem validate_symbols_duplicate_survives :
    validate_symbols ["spy", "spy"] = ["SPY", "SPY"] ∧
      ¬ (validate_symbols ["spy", "spy"]).Nodup := by
  constructor
  · decide
  · decide

/-- A key absent from the association list looks up to `none`. -/
theorem lookup_eq_none_of_not_mem_keys {α : Type} (l : List (String × α)) (k : String)
    (h : ¬ k ∈ l.map Prod.fst) : l.lookup k = none := by
  induction l with
  | nil => rfl
  | cons p t ih =>
    simp only [List.map_cons, List.mem_cons, not_or] at h
    obtain ⟨h1, h2⟩ := h
    have hb : (k == p.1) = false := beq_eq_false_iff_ne.mpr h1
    cases p with
    | mk a b =>
      simp only at hb
      simp [List.lookup, hb, ih h2]

/-- The validated mean-reversion universe is non-empty: its first symbol
`"SPY"` survives the cleaning loop. -/
theorem validate_MEAN_REVERSION_ne_nil : validate_symbols MEAN_REVERSION ≠ [] := by
  obtain ⟨tl, htl⟩ : ∃ tl, MEAN_REVERSION = "SPY" :: tl := ⟨_, rfl⟩
  rw [validate_symbols, htl]
  have h1 : ¬ ("SPY" : String) ∈ ([] : List String) := by simp
  have h2 : ¬ ("SPY" : String) = "" := by decide
  simp [validateGo, h1, h2]

/-- C10: for every strategy name outside the eleven keys of
`strategy_mapping`, `get_stocks_for_strategy` falls back to the validated
`MEAN_REVERSION` list and returns a non-empty symbol list — the lookup is
total and never fails. -/
theorem get_stocks_for_strategy_total (name : String)
    (h : ¬ name ∈ strategy_mapping.map Prod.fst) :
    get_stocks_for_strategy name = validate_symbols MEAN_REVERSION ∧
      get_stocks_for_strategy name ≠ [] := by
  have hl : strategy_mapping.lookup name = none :=
    lookup_eq_none_of_not_mem_keys strategy_mapping name h
  constructor
  · rw [get_stocks_for_strategy, hl]
    rfl
  · rw [get_stocks_for_strategy, hl]
    exact validate_MEAN_REVERSION_ne_nil

/-- Witness for C10 at the concrete non-key name `"Momentum"`. -/
theorem get_stocks_for_strategy_total_witness :
    get_stocks_for_strategy "Momentum" = validate_symbols MEAN_REVERSION ∧
      get_stocks_for_strategy "Momentum" ≠ [] :=
  get_stocks_for_strategy_total "Momentum" (by decide)

end StockLists
